import Mathlib

/-!
Verification of the crm_api repository's manifest subsystem, token service and
user stores, shallowly embedded from the Python sources.

File contents: first a byte-level SHA-256 (embedding `hashlib.sha256` as used by
`sha256_file`), then the manifest generator state machines of
`CRM_CLIENT_MANIFEST/manifest_generator.py` and
`CRM_CLIENT_MANIFEST/manifest_api.py`, the token service of
`API_DATABASE/auth.py`, the CRUD handlers of `API_DATABASE/auth_manage_user.py`
and `CRM_DATABASE/crm_api.py`, and finally the theorems.
-/

/-! ## SHA-256 over byte lists (hashlib.sha256, as consumed by sha256_file) -/

/-- Truncation to a 32-bit word. -/
def w32 (x : Nat) : Nat := x % 4294967296

/-- 32-bit right rotation (input assumed below 2^32). -/
def rotr32 (n x : Nat) : Nat := w32 ((x >>> n) ||| (x <<< (32 - n)))

/-- Bitwise complement on 32-bit words. -/
def not32 (x : Nat) : Nat := x ^^^ 4294967295

def sha256Ch (x y z : Nat) : Nat := (x &&& y) ^^^ (not32 x &&& z)

def sha256Maj (x y z : Nat) : Nat := (x &&& y) ^^^ (x &&& z) ^^^ (y &&& z)

def sha256BigSigma0 (x : Nat) : Nat := rotr32 2 x ^^^ rotr32 13 x ^^^ rotr32 22 x

def sha256BigSigma1 (x : Nat) : Nat := rotr32 6 x ^^^ rotr32 11 x ^^^ rotr32 25 x

def sha256SmallSigma0 (x : Nat) : Nat := rotr32 7 x ^^^ rotr32 18 x ^^^ (x >>> 3)

def sha256SmallSigma1 (x : Nat) : Nat := rotr32 17 x ^^^ rotr32 19 x ^^^ (x >>> 10)

/-- The 64 SHA-256 round constants. -/
def sha256K : Array Nat := #[
  1116352408, 1899447441, 3049323471, 3921009573, 961987163, 1508970993,
  2453635748, 2870763221, 3624381080, 310598401, 607225278, 1426881987,
  1925078388, 2162078206, 2614888103, 3248222580, 3835390401, 4022224774,
  264347078, 604807628, 770255983, 1249150122, 1555081692, 1996064986,
  2554220882, 2821834349, 2952996808, 3210313671, 3336571891, 3584528711,
  113926993, 338241895, 666307205, 773529912, 1294757372, 1396182291,
  1695183700, 1986661051, 2177026350, 2456956037, 2730485921, 2820302411,
  3259730800, 3345764771, 3516065817, 3600352804, 4094571909, 275423344,
  430227734, 506948616, 659060556, 883997877, 958139571, 1322822218,
  1537002063, 1747873779, 1955562222, 2024104815, 2227730452, 2361852424,
  2428436474, 2756734187, 3204031479, 3329325298]

/-- The SHA-256 initial hash value. -/
def sha256H0 : List Nat :=
  [1779033703, 3144134277, 1013904242, 2773480762,
   1359893119, 2600822924, 528734635, 1541459225]

/-- Big-endian bytes of the 64-bit message bit length. -/
def sha256LenBytes (bitLen : Nat) : List Nat :=
  [(bitLen >>> 56) % 256, (bitLen >>> 48) % 256, (bitLen >>> 40) % 256,
   (bitLen >>> 32) % 256, (bitLen >>> 24) % 256, (bitLen >>> 16) % 256,
   (bitLen >>> 8) % 256, bitLen % 256]

/-- SHA-256 padding: append 0x80, zeros to 56 mod 64, then the 64-bit length. -/
def sha256Pad (msg : List Nat) : List Nat :=
  let L := msg.length
  let zeros := (64 - ((L + 9) % 64)) % 64
  msg ++ [128] ++ List.replicate zeros 0 ++ sha256LenBytes (8 * L)

/-- Group bytes into big-endian 32-bit words. -/
def bytesToWords : List Nat → List Nat
  | a :: b :: c :: d :: t => (a * 16777216 + b * 65536 + c * 256 + d) :: bytesToWords t
  | _ => []

/-- Split a word list into blocks of sixteen words (fuel-driven). -/
def chunk16 : Nat → List Nat → List (List Nat)
  | 0, _ => []
  | _, [] => []
  | Nat.succ n, l => l.take 16 :: chunk16 n (l.drop 16)

/-- Extend a 16-word block to the 64-word message schedule. -/
def sha256Schedule (block : List Nat) : Array Nat :=
  (List.range 48).foldl
    (fun a j =>
      a.push (w32 (sha256SmallSigma1 (a.getD (j + 14) 0) + a.getD (j + 9) 0 +
                   sha256SmallSigma0 (a.getD (j + 1) 0) + a.getD j 0)))
    block.toArray

/-- One SHA-256 compression round. -/
def sha256Round (wk : Nat × Nat) : Nat × Nat × Nat × Nat × Nat × Nat × Nat × Nat →
    Nat × Nat × Nat × Nat × Nat × Nat × Nat × Nat
  | (a, b, c, d, e, f, g, h) =>
    let t1 := w32 (h + sha256BigSigma1 e + sha256Ch e f g + wk.2 + wk.1)
    let t2 := w32 (sha256BigSigma0 a + sha256Maj a b c)
    (w32 (t1 + t2), a, b, c, w32 (d + t1), e, f, g)

/-- Compress one 512-bit block into the running hash state. -/
def sha256Compress (h : List Nat) (block : List Nat) : List Nat :=
  let w := sha256Schedule block
  let init : Nat × Nat × Nat × Nat × Nat × Nat × Nat × Nat :=
    (h.getD 0 0, h.getD 1 0, h.getD 2 0, h.getD 3 0,
     h.getD 4 0, h.getD 5 0, h.getD 6 0, h.getD 7 0)
  let r := (List.range 64).foldl (fun st i => sha256Round (w.getD i 0, sha256K.getD i 0) st) init
  match r with
  | (a, b, c, d, e, f, g, hh) =>
    [w32 (h.getD 0 0 + a), w32 (h.getD 1 0 + b), w32 (h.getD 2 0 + c),
     w32 (h.getD 3 0 + d), w32 (h.getD 4 0 + e), w32 (h.getD 5 0 + f),
     w32 (h.getD 6 0 + g), w32 (h.getD 7 0 + hh)]

/-- The eight 32-bit words of the SHA-256 digest of a byte list. -/
def sha256Words (msg : List Nat) : List Nat :=
  let ws := bytesToWords (sha256Pad msg)
  (chunk16 ws.length ws).foldl sha256Compress sha256H0

/-- Lower-case hex digit. -/
def hexChar (n : Nat) : Char :=
  if n < 10 then Char.ofNat (48 + n) else Char.ofNat (87 + n)

/-- Eight hex characters of a 32-bit word, most significant first. -/
def wordHexChars (x : Nat) : List Char :=
  [hexChar ((x >>> 28) % 16), hexChar ((x >>> 24) % 16), hexChar ((x >>> 20) % 16),
   hexChar ((x >>> 16) % 16), hexChar ((x >>> 12) % 16), hexChar ((x >>> 8) % 16),
   hexChar ((x >>> 4) % 16), hexChar (x % 16)]

/-- `hexdigest()` of `hashlib.sha256` on a byte string, as returned by
`sha256_file` for a file with the given content bytes. -/
def sha256Hex (msg : List Nat) : String :=
  String.mk ((sha256Words msg).flatMap wordHexChars)

/-- ASCII bytes of a string (all file contents used in examples are ASCII). -/
def asciiBytes (s : String) : List Nat := s.data.map Char.toNat

deriving instance DecidableEq for Except

set_option maxRecDepth 20000 in
example : sha256Hex (asciiBytes "hi") =
    "8f434346648f6b96df89dda901c5176b10a6d83961dd3c1ac88b59b2dc327aa4" := by decide

/-! ## Filesystem model

A directory state is the enumeration `CLIENT_DIR.rglob("*")` produces: one
entry per filesystem object below the root, carrying its root-relative
forward-slash path (`file_path.relative_to(CLIENT_DIR).as_posix()`), whether it
is a regular file (`file_path.is_file()`), its content bytes and its `st_mtime`.
A real directory never yields two entries with the same path; theorems that
need this state it as a `Nodup` hypothesis. -/

structure FsEntry where
  path : String
  isFile : Bool
  content : List Nat
  mtime : Nat
deriving DecidableEq

/-- Order used by Python's `sorted()` on the rglob result: paths compare as
strings, lexicographically by code point, and since every full path extends
the same `CLIENT_DIR` prefix this equals comparison of the root-relative
paths. -/
def entryLe (a b : FsEntry) : Prop := a.path.data ≤ b.path.data

instance : DecidableRel entryLe :=
  fun a b => inferInstanceAs (Decidable (a.path.data ≤ b.path.data))

/-- `sorted(CLIENT_DIR.rglob("*"))` — Python's sort is stable, as is insertion
sort with a non-strict order. -/
def sortEntries (l : List FsEntry) : List FsEntry := List.insertionSort entryLe l

/-- `max((f.stat().st_mtime for f in CLIENT_DIR.rglob("*") if f.is_file()), default=0)` -/
def latestMtime (l : List FsEntry) : Nat :=
  (l.filter (fun f => f.isFile)).foldl (fun a f => max a f.mtime) 0

/-- JSON string literal (no character of the data used here needs escaping). -/
def jsonStr (s : String) : String := "\"" ++ s ++ "\""

/-- The `files` object as printed by `json.dump(..., indent=4)`, keys in the
order of the association list. -/
def filesJson (fs : List (String × String)) : String :=
  match fs with
  | [] => "\x7b\x7d"
  | _ =>
    "\x7b\n" ++
    String.intercalate ",\n"
      (fs.map (fun p => "        " ++ jsonStr p.1 ++ ": " ++ jsonStr p.2)) ++
    "\n    \x7d"

/-- Sorting of string-keyed pairs, as done by `json.dump(..., sort_keys=True)`
(code-point order again). -/
def sortPairs (fs : List (String × String)) : List (String × String) :=
  List.insertionSort (fun a b => a.1.data ≤ b.1.data) fs

/-! ## CRM_CLIENT_MANIFEST/manifest_generator.py -/

namespace MGen

/-- The parsed internal JSON config file; a key maps to `none` when absent. -/
structure ConfigJson where
  version : Option String
  download_url : Option String
deriving DecidableEq

/-- Result of `read_internal_config()`. -/
structure Config where
  version : String
  download_url : String
deriving DecidableEq

inductive GenError where
  /-- `FileNotFoundError`: `CONFIG_FILE` does not exist. -/
  | configFileNotFound
  /-- `KeyError`: `"version"` or `"download_url"` missing from the config. -/
  | configKeyMissing
deriving DecidableEq

/-- `read_internal_config` — raises when the file is missing or a key absent. -/
def read_internal_config (src : Option ConfigJson) : Except GenError Config :=
  match src with
  | none => .error .configFileNotFound
  | some j =>
    match j.version, j.download_url with
    | some v, some u => .ok { version := v, download_url := u }
    | _, _ => .error .configKeyMissing

/-- The manifest dict built by `generate_manifest`; `files` keeps the insertion
order of the loop over `sorted(CLIENT_DIR.rglob("*"))`. -/
structure GManifest where
  version : String
  download_url : String
  files : List (String × String)
deriving DecidableEq

/-- Bytes written to `CACHE_FILE` by
`json.dump(manifest, f, indent=4, sort_keys=True)`. -/
def serializeG (m : GManifest) : String :=
  "\x7b\n    \"download_url\": " ++ jsonStr m.download_url ++
  ",\n    \"files\": " ++ filesJson (sortPairs m.files) ++
  ",\n    \"version\": " ++ jsonStr m.version ++ "\n\x7d"

/-- Pure core of `generate_manifest`: read the config, then hash every regular
file below `CLIENT_DIR` in sorted order under its relative posix path.
(The `CLIENT_DIR.mkdir(parents=True, exist_ok=True)` call and the `CACHE_FILE`
write are filesystem effects handled by `run_generate` below.) -/
def generate_manifest (cfgSrc : Option ConfigJson) (entries : List FsEntry) :
    Except GenError GManifest :=
  match read_internal_config cfgSrc with
  | .error e => .error e
  | .ok c =>
    let files := ((sortEntries entries).filter (fun f => f.isFile)).map
      (fun f => (f.path, sha256Hex f.content))
    .ok { version := c.version, download_url := c.download_url, files := files }

/-- The module-level mutable state of `manifest_generator.py`, together with
the files the module writes (which live in `CLIENT_DIR.parent`, outside the
watched tree). The counters record how often each effect happened. -/
structure GenState where
  /-- `manifest_cache` — `none` models the falsy empty dict. -/
  cache : Option GManifest
  /-- `LAST_MOD` -/
  lastMod : Nat
  /-- Content of `ZIP_PATH`, `none` while the archive does not exist. -/
  zipFile : Option (List (String × List Nat))
  /-- Content of `CACHE_FILE`, `none` while it does not exist. -/
  cacheFile : Option String
  /-- Number of successful `generate_manifest()` runs. -/
  builds : Nat
  /-- Number of writes to `CACHE_FILE`. -/
  cacheWrites : Nat
  /-- Number of writes to `ZIP_PATH`. -/
  zipWrites : Nat
deriving DecidableEq

/-- The inputs a call observes: the internal config file and the directory. -/
structure GenEnv where
  cfgSrc : Option ConfigJson
  entries : List FsEntry
deriving DecidableEq

/-- `generate_manifest()` with its `CACHE_FILE` write; a config error is raised
before anything is written, so the state is unchanged on failure. -/
def run_generate (env : GenEnv) (s : GenState) : GenState × Except GenError GManifest :=
  match generate_manifest env.cfgSrc env.entries with
  | .error e => (s, .error e)
  | .ok m =>
    ({ s with
        cacheFile := some (serializeG m)
        cacheWrites := s.cacheWrites + 1
        builds := s.builds + 1 },
      .ok m)

/-- `manifest_needs_update()` — note it assigns `LAST_MOD` before answering. -/
def manifest_needs_update (env : GenEnv) (s : GenState) : Bool × GenState :=
  let latest := latestMtime env.entries
  if s.lastMod < latest then (true, { s with lastMod := latest }) else (false, s)

/-- The archive entries: files in sorted order under relative posix arcnames. -/
def zipContents (entries : List FsEntry) : List (String × List Nat) :=
  ((sortEntries entries).filter (fun f => f.isFile)).map (fun f => (f.path, f.content))

/-- The value `create_zip_if_needed` RETURNS (it never raises): a
`FileNotFoundError` object for a missing or empty client directory, `None`
otherwise. -/
inductive ZipReturn where
  | fileNotFoundValue
deriving DecidableEq

/-- `create_zip_if_needed()` — returns (not raises) an error object when
`CLIENT_DIR` is missing or empty; otherwise rebuilds `ZIP_PATH` unless the
archive exists and no file is newer than `LAST_MOD`, and then assigns
`LAST_MOD = latest_mtime`. -/
def create_zip_if_needed (env : GenEnv) (s : GenState) : Option ZipReturn × GenState :=
  if env.entries.isEmpty then (some .fileNotFoundValue, s)
  else
    let latest := latestMtime env.entries
    if s.zipFile.isSome ∧ latest ≤ s.lastMod then (none, s)
    else
      (none,
        { s with
            zipFile := some (zipContents env.entries)
            zipWrites := s.zipWrites + 1
            lastMod := latest })

/-- The body of `update_manifest_cache` under `CACHE_LOCK`: rebuild when the
cache dict is falsy (short-circuit: the staleness check is then skipped) or
when `manifest_needs_update()` answers true. -/
def lock_body (env : GenEnv) (s : GenState) : GenState × Except GenError GManifest :=
  match s.cache with
  | none =>
    match run_generate env s with
    | (s', .ok m) => ({ s' with cache := some m }, .ok m)
    | (s', .error e) => (s', .error e)
  | some m =>
    let (need, s1) := manifest_needs_update env s
    if need then
      match run_generate env s1 with
      | (s', .ok m') => ({ s' with cache := some m' }, .ok m')
      | (s', .error e) => (s', .error e)
    else (s1, .ok m)

/-- `update_manifest_cache()` — runs the zip step first, discarding its return
value, then the locked check-and-rebuild. -/
def update_manifest_cache (env : GenEnv) (s : GenState) : GenState × Except GenError GManifest :=
  let z := create_zip_if_needed env s
  lock_body env z.2

end MGen

/-! ## CRM_CLIENT_MANIFEST/manifest_api.py

This is the variant mounted by `main.py`. Differences from the generator
variant: version and base URL come from environment constants, the rglob
result is NOT sorted, the cache file is written with `json.dump(manifest, f,
indent=4)` (insertion order, no `sort_keys`), there is no zip step, and
`CACHE_FILE = Path(f"{CLIENT_DIR}/manifest_cache.json")` lies INSIDE the
watched directory, so every build modifies the watched tree. -/

namespace MApi

/-- The manifest dict of `manifest_api.generate_manifest`; its URL key is
`base_url` and `files` keeps rglob encounter order. -/
structure AManifest where
  version : String
  base_url : String
  files : List (String × String)
deriving DecidableEq

/-- Bytes written to `CACHE_FILE` by `json.dump(manifest, f, indent=4)`:
keys in insertion order `version`, `base_url`, `files`. -/
def serializeA (m : AManifest) : String :=
  "\x7b\n    \"version\": " ++ jsonStr m.version ++
  ",\n    \"base_url\": " ++ jsonStr m.base_url ++
  ",\n    \"files\": " ++ filesJson m.files ++ "\n\x7d"

/-- Pure core of `manifest_api.generate_manifest`: hash every regular file of
the (unsorted) enumeration. -/
def generate_manifest (version base_url : String) (entries : List FsEntry) : AManifest :=
  { version := version
    base_url := base_url
    files := (entries.filter (fun f => f.isFile)).map
      (fun f => (f.path, sha256Hex f.content)) }

/-- Relative path of `CACHE_FILE` inside `CLIENT_DIR`. -/
def cacheName : String := "manifest_cache.json"

/-- `VERSION` and `BASE_URL` from `env_var`. -/
structure ApiEnv where
  version : String
  base_url : String
deriving DecidableEq

/-- Module state of `manifest_api.py` plus the watched directory itself, which
the module mutates by writing `CACHE_FILE` into it. `now` is the clock that
stamps `st_mtime` on writes; it advances past every existing mtime. -/
structure ApiState where
  /-- rglob enumeration of `CLIENT_DIR`, including `manifest_cache.json` once written. -/
  dir : List FsEntry
  /-- Current time, strictly after all recorded mtimes. -/
  now : Nat
  /-- `manifest_cache` — `none` models the falsy empty dict. -/
  cache : Option AManifest
  /-- `LAST_MOD` -/
  lastMod : Nat
  /-- Number of `generate_manifest()` runs. -/
  builds : Nat
deriving DecidableEq

/-- Overwrite (or create) a file in the directory, stamping the current time. -/
def writeFile (dir : List FsEntry) (path : String) (content : List Nat) (t : Nat) :
    List FsEntry :=
  dir.filter (fun f => f.path ≠ path) ++ [{ path := path, isFile := true, content := content, mtime := t }]

/-- `generate_manifest()` including its write of `CACHE_FILE` into `CLIENT_DIR`. -/
def run_generate (env : ApiEnv) (s : ApiState) : ApiState × AManifest :=
  let m := generate_manifest env.version env.base_url s.dir
  ({ s with
      dir := writeFile s.dir cacheName (asciiBytes (serializeA m)) s.now
      now := s.now + 1
      builds := s.builds + 1 },
    m)

/-- `manifest_needs_update()` — identical logic to the generator variant. -/
def manifest_needs_update (s : ApiState) : Bool × ApiState :=
  let latest := latestMtime s.dir
  if s.lastMod < latest then (true, { s with lastMod := latest }) else (false, s)

/-- `update_manifest_cache()` — when the cache dict is falsy the staleness
check is short-circuited (so `LAST_MOD` stays untouched on the first build). -/
def update_manifest_cache (env : ApiEnv) (s : ApiState) : ApiState × AManifest :=
  match s.cache with
  | none =>
    let (s', m) := run_generate env s
    ({ s' with cache := some m }, m)
  | some m0 =>
    let (need, s1) := manifest_needs_update s
    if need then
      let (s', m) := run_generate env s1
      ({ s' with cache := some m }, m)
    else (s1, m0)

end MApi

/-! ## API_DATABASE/auth.py — token service

`jwt.encode`/`jwt.decode` (PyJWT) are external primitives; they are modelled by
a record carrying the signed payload, the signing key and the algorithm, with
`jwt_decode` performing exactly the checks PyJWT performs: signature (key and
algorithm match) and expiry (`ExpiredSignatureError` when `exp <= now`).
Times are seconds as integers. -/

namespace Auth

/-- The claims of the tokens this service issues: the `"sub"` key (absent when
the data dict carried none) and the `"exp"` timestamp set by
`create_access_token`. -/
structure Payload where
  sub : Option String
  exp : Int
deriving DecidableEq

/-- A signed JWT. -/
structure Jwt where
  payload : Payload
  key : String
  alg : String
deriving DecidableEq

inductive JwtError where
  /-- signature or algorithm mismatch -/
  | invalidSignature
  /-- `ExpiredSignatureError` -/
  | expired
deriving DecidableEq

/-- `jwt.encode(payload, key, algorithm=alg)` -/
def jwt_encode (p : Payload) (key alg : String) : Jwt := ⟨p, key, alg⟩

/-- `jwt.decode(token, key, algorithms=algs)` at time `now`. -/
def jwt_decode (t : Jwt) (key : String) (algs : List String) (now : Int) :
    Except JwtError Payload :=
  if t.key = key ∧ t.alg ∈ algs then
    if t.payload.exp ≤ now then .error .expired else .ok t.payload
  else .error .invalidSignature

/-- Errors surfaced by the handlers: an `HTTPException` with status and detail,
or a raw database error (`IntegrityError`) escaping uncaught. -/
inductive ApiError where
  | http (status : Nat) (detail : String)
  | rawIntegrityError
deriving DecidableEq

/-- `TokenData` from API_DATABASE/models.py. -/
structure TokenData where
  email : Option String
deriving DecidableEq

/-- `create_access_token(data, expires_delta)` at time `now` (seconds since
epoch for `datetime.utcnow()`): expiry is `now + expires_delta`, defaulting to
15 minutes. `dataSub` is the `"sub"` entry of the `data` dict. -/
def create_access_token (dataSub : Option String) (expires_delta : Option Int)
    (now : Int) (secret alg : String) : Jwt :=
  let expire := now + (match expires_delta with | some d => d | none => 15 * 60)
  jwt_encode { sub := dataSub, exp := expire } secret alg

/-- The 401 raised whenever a token fails verification. -/
def couldNotVerify : ApiError := .http 401 "Could not verify credentials"

/-- `verify_token(token)` at time `now`. -/
def verify_token (t : Jwt) (now : Int) (secret alg : String) :
    Except ApiError TokenData :=
  match jwt_decode t secret [alg] now with
  | .error _ => .error couldNotVerify
  | .ok p =>
    match p.sub with
    | none => .error couldNotVerify
    | some e => .ok { email := some e }

end Auth

/-! ## API_DATABASE — auth user store (models.py, auth_manage_user.py) -/

namespace AuthStore

/-- A row of the auth `users` table. -/
structure User where
  id : Nat
  name : String
  email : String
  role : String
  hashed_pwd : String
  is_active : Bool
deriving DecidableEq

/-- `UserCreate` from API_DATABASE/models.py. -/
structure UserCreate where
  name : String
  email : String
  role : String
  password : String
deriving DecidableEq

/-- The auth database: its rows plus the autoincrement counter the engine uses
to assign primary keys. -/
structure DB where
  users : List User
  nextId : Nat
deriving DecidableEq

/-- `db.query(User).filter(User.id == user_id).first()` -/
def findById (db : DB) (uid : Nat) : Option User :=
  db.users.find? (fun u => u.id == uid)

/-- `db.query(User).filter(User.email == email).first()` -/
def findByEmail (db : DB) (email : String) : Option User :=
  db.users.find? (fun u => u.email == email)

/-- `GET /auth/user/users/{user_id}` body (after the auth guard). -/
def get_user (db : DB) (uid : Nat) : Except Auth.ApiError User :=
  match findById db uid with
  | none => .error (.http 404 "User not found")
  | some u => .ok u

/-- `POST /auth/user/create/` body: reject an already registered email, hash
the password, insert. This handler has NO `current_user` parameter. -/
def create_user (db : DB) (req : UserCreate) (hashPwd : String → String) :
    DB × Except Auth.ApiError User :=
  if (findByEmail db req.email).isSome then
    (db, .error (.http 404 "User already exists!"))
  else
    let nu : User :=
      { id := db.nextId, name := req.name, email := req.email, role := req.role
        hashed_pwd := hashPwd req.password, is_active := true }
    ({ users := db.users ++ [nu], nextId := db.nextId + 1 }, .ok nu)

/-- `PUT /auth/user/users/{user_id}` body: overwrite name, email and role,
then commit. The commit's `IntegrityError` (another row already holds the new
email) is NOT caught here and escapes as a raw database error. -/
def update_user (db : DB) (uid : Nat) (req : UserCreate) :
    DB × Except Auth.ApiError User :=
  match findById db uid with
  | none => (db, .error (.http 404 "User does not exist!"))
  | some u =>
    let u' : User := { u with name := req.name, email := req.email, role := req.role }
    if db.users.any (fun v => v.id ≠ u.id ∧ v.email = req.email) then
      (db, .error .rawIntegrityError)
    else
      ({ db with users := db.users.map (fun v => if v.id == u.id then u' else v) }, .ok u')

/-- `DELETE /auth/user/users/{user_id}` body: 404 when absent, refuse deleting
the authenticated caller's own row, otherwise delete. -/
def delete_user (db : DB) (uid : Nat) (current : User) :
    DB × Except Auth.ApiError String :=
  match findById db uid with
  | none => (db, .error (.http 404 "User does not exist !"))
  | some u =>
    if u.id == current.id then
      (db, .error (.http 404 "You cannot delete yourself!"))
    else
      ({ db with users := db.users.eraseP (fun v => v.id == uid) }, .ok "User Deleted")

/-- `GET /auth/user/users/` body. -/
def get_all_users (db : DB) : List User := db.users

end AuthStore

/-! ## CRM_DATABASE — CRM user store (models.py, crm_api.py) -/

namespace CrmStore

/-- A row of the CRM `users` table: a contact record, no password or role. -/
structure User where
  id : Nat
  name : String
  first_name : String
  email : String
  telephone : String
deriving DecidableEq

/-- `UserCreate` from CRM_DATABASE/models.py. -/
structure UserCreate where
  name : String
  first_name : String
  email : String
  telephone : String
deriving DecidableEq

structure DB where
  users : List User
  nextId : Nat
deriving DecidableEq

def findById (db : DB) (uid : Nat) : Option User :=
  db.users.find? (fun u => u.id == uid)

def findByEmail (db : DB) (email : String) : Option User :=
  db.users.find? (fun u => u.email == email)

/-- `GET /crm/users/{user_id}` body (after the auth guard). -/
def get_user (db : DB) (uid : Nat) : Except Auth.ApiError User :=
  match findById db uid with
  | none => .error (.http 404 "User not found")
  | some u => .ok u

/-- `GET /crm/users/email/{user_email}` body. -/
def get_user_with_email (db : DB) (email : String) : Except Auth.ApiError User :=
  match findByEmail db email with
  | none => .error (.http 404 "User not found")
  | some u => .ok u

/-- `POST /crm/users/` body: reject an existing email, insert
`User(**user.dict())` with a server-assigned id. -/
def create_user (db : DB) (req : UserCreate) : DB × Except Auth.ApiError User :=
  if (findByEmail db req.email).isSome then
    (db, .error (.http 404 "User already exists!"))
  else
    let nu : User :=
      { id := db.nextId, name := req.name, first_name := req.first_name
        email := req.email, telephone := req.telephone }
    ({ users := db.users ++ [nu], nextId := db.nextId + 1 }, .ok nu)

/-- `PUT /crm/users/{user_id}` body: overwrite every `UserCreate` field, then
commit; an `IntegrityError` at commit IS caught and reported as
`HTTPException(404, "User already exists!")`, leaving the rows unchanged. -/
def update_user (db : DB) (uid : Nat) (req : UserCreate) :
    DB × Except Auth.ApiError User :=
  match findById db uid with
  | none => (db, .error (.http 404 "User does not exist!"))
  | some u =>
    let u' : User :=
      { u with name := req.name, first_name := req.first_name
               email := req.email, telephone := req.telephone }
    if db.users.any (fun v => v.id ≠ u.id ∧ v.email = req.email) then
      (db, .error (.http 404 "User already exists!"))
    else
      ({ db with users := db.users.map (fun v => if v.id == u.id then u' else v) }, .ok u')

/-- `DELETE /crm/users/{user_id}` body — no self-delete guard here. -/
def delete_user (db : DB) (uid : Nat) : DB × Except Auth.ApiError String :=
  match findById db uid with
  | none => (db, .error (.http 404 "User does not exist !"))
  | some _ =>
    ({ db with users := db.users.eraseP (fun v => v.id == uid) }, .ok "User Deleted")

/-- `GET /crm/users/` body. -/
def get_all_users (db : DB) : List User := db.users

end CrmStore

/-! ## The CRUD endpoint surface and its auth guards

Every handler listing `current_user: user_dependency` among its parameters
makes FastAPI resolve `get_current_user` first; when that dependency raises
(bad token, unknown subject) the request is rejected with that error before
the handler body runs. `auth` below is the outcome of that resolution for the
request's bearer token. Reading the two routers off the source:

- `POST /auth/user/create/` (`auth_manage_user.create_user`) takes only
  `user: UserCreate, db: db_dependency` — NO `current_user`, so `auth` is
  never consulted;
- every other CRUD handler on `/auth/user` and `/crm/users` — including
  `POST /crm/users/` (`crm_api.create_user`) — declares
  `current_user: user_dependency`. -/

namespace Surface

open Auth AuthStore CrmStore

/-- One CRUD request with its payload. -/
inductive Request where
  | authGetUser (uid : Nat)
  | authCreate (req : AuthStore.UserCreate)
  | authUpdate (uid : Nat) (req : AuthStore.UserCreate)
  | authDelete (uid : Nat)
  | authList
  | crmGetUser (uid : Nat)
  | crmGetByEmail (email : String)
  | crmCreate (req : CrmStore.UserCreate)
  | crmUpdate (uid : Nat) (req : CrmStore.UserCreate)
  | crmDelete (uid : Nat)
  | crmList
deriving DecidableEq

inductive Response where
  | authUser (u : AuthStore.User)
  | authUsers (l : List AuthStore.User)
  | crmUser (u : CrmStore.User)
  | crmUsers (l : List CrmStore.User)
  | message (s : String)
deriving DecidableEq

/-- Both stores. -/
structure AppState where
  authDb : AuthStore.DB
  crmDb : CrmStore.DB
deriving DecidableEq

/-- Lift a store result into a response. -/
def mapResp {α : Type} (f : α → Response) : Except ApiError α → Except ApiError Response
  | .error e => .error e
  | .ok a => .ok (f a)

/-- Dispatch one request. `auth` is the result of resolving the
`get_current_user` dependency; handlers without the dependency ignore it. -/
def handle (r : Request) (auth : Except ApiError AuthStore.User)
    (hashPwd : String → String) (s : AppState) : AppState × Except ApiError Response :=
  match r with
  | .authCreate req =>
    let (db', res) := AuthStore.create_user s.authDb req hashPwd
    ({ s with authDb := db' }, mapResp .authUser res)
  | .authGetUser uid =>
    match auth with
    | .error e => (s, .error e)
    | .ok _ => (s, mapResp .authUser (AuthStore.get_user s.authDb uid))
  | .authUpdate uid req =>
    match auth with
    | .error e => (s, .error e)
    | .ok _ =>
      let (db', res) := AuthStore.update_user s.authDb uid req
      ({ s with authDb := db' }, mapResp .authUser res)
  | .authDelete uid =>
    match auth with
    | .error e => (s, .error e)
    | .ok cur =>
      let (db', res) := AuthStore.delete_user s.authDb uid cur
      ({ s with authDb := db' }, mapResp .message res)
  | .authList =>
    match auth with
    | .error e => (s, .error e)
    | .ok _ => (s, .ok (.authUsers (AuthStore.get_all_users s.authDb)))
  | .crmGetUser uid =>
    match auth with
    | .error e => (s, .error e)
    | .ok _ => (s, mapResp .crmUser (CrmStore.get_user s.crmDb uid))
  | .crmGetByEmail em =>
    match auth with
    | .error e => (s, .error e)
    | .ok _ => (s, mapResp .crmUser (CrmStore.get_user_with_email s.crmDb em))
  | .crmCreate req =>
    match auth with
    | .error e => (s, .error e)
    | .ok _ =>
      let (db', res) := CrmStore.create_user s.crmDb req
      ({ s with crmDb := db' }, mapResp .crmUser res)
  | .crmUpdate uid req =>
    match auth with
    | .error e => (s, .error e)
    | .ok _ =>
      let (db', res) := CrmStore.update_user s.crmDb uid req
      ({ s with crmDb := db' }, mapResp .crmUser res)
  | .crmDelete uid =>
    match auth with
    | .error e => (s, .error e)
    | .ok _ =>
      let (db', res) := CrmStore.delete_user s.crmDb uid
      ({ s with crmDb := db' }, mapResp .message res)
  | .crmList =>
    match auth with
    | .error e => (s, .error e)
    | .ok _ => (s, .ok (.crmUsers (CrmStore.get_all_users s.crmDb)))

end Surface

/-! ## Theorems -/

/-- C2: verifying a token issued for a subject returns that subject before
`issue_time + ttl` and fails with the 401 "Could not verify credentials"
error after `issue_time + ttl`. -/
theorem C2_token_roundtrip (secret alg subject : String) (ttl now t : Int)
    (httl : 0 < ttl) :
    (t < now + ttl →
      Auth.verify_token (Auth.create_access_token (some subject) (some ttl) now secret alg)
        t secret alg = .ok { email := some subject }) ∧
    (now + ttl < t →
      Auth.verify_token (Auth.create_access_token (some subject) (some ttl) now secret alg)
        t secret alg = .error Auth.couldNotVerify) := by
  constructor
  · intro hlt
    have hne : ¬(now + ttl ≤ t) := by omega
    simp [Auth.verify_token, Auth.create_access_token, Auth.jwt_encode, Auth.jwt_decode, hne]
  · intro hgt
    have hle : now + ttl ≤ t := by omega
    simp [Auth.verify_token, Auth.create_access_token, Auth.jwt_encode, Auth.jwt_decode, hle,
      Auth.couldNotVerify]

/-- C2 witness: a token for "alice" with a 900 s ttl issued at time 1000
verifies at 1500 and is rejected at 2000. -/
theorem C2_token_roundtrip_witness :
    Auth.verify_token (Auth.create_access_token (some "alice") (some 900) 1000 "k" "HS256")
        1500 "k" "HS256" = .ok { email := some "alice" } ∧
    Auth.verify_token (Auth.create_access_token (some "alice") (some 900) 1000 "k" "HS256")
        2000 "k" "HS256" = .error Auth.couldNotVerify :=
  ⟨(C2_token_roundtrip "k" "HS256" "alice" 900 1000 1500 (by decide)).1 (by decide),
   (C2_token_roundtrip "k" "HS256" "alice" 900 1000 2000 (by decide)).2 (by decide)⟩

/-- With pairwise-distinct primary keys, erasing the row found by id leaves no
row with that id. -/
lemma find_id_eraseP (l : List AuthStore.User) (uid : Nat)
    (h : (l.map AuthStore.User.id).Nodup) :
    (l.eraseP (fun v => v.id == uid)).find? (fun v => v.id == uid) = none := by
  induction l with
  | nil => rfl
  | cons a l ih =>
    simp only [List.map_cons, List.nodup_cons, List.mem_map] at h
    by_cases ha : a.id = uid
    · rw [List.eraseP_cons_of_pos (by simp [ha])]
      rw [List.find?_eq_none]
      intro x hx
      simp only [beq_iff_eq]
      intro hxid
      exact h.1 ⟨x, hx, by rw [hxid, ha]⟩
    · rw [List.eraseP_cons_of_neg (by simp [ha])]
      rw [List.find?_cons_of_neg _ (by simp [ha])]
      exact ih h.2

/-- C7: with distinct primary keys, for any authenticated caller and any id
present in the auth store, `delete_user` rejects deleting the caller's own row
(leaving the store unchanged) and deletes any other row, after which reading
that id fails with "User not found". -/
theorem C7_self_delete_guard (db : AuthStore.DB) (cur : AuthStore.User) (uid : Nat)
    (u : AuthStore.User) (hids : (db.users.map AuthStore.User.id).Nodup)
    (hfind : AuthStore.findById db uid = some u) :
    (uid = cur.id →
      AuthStore.delete_user db uid cur =
        (db, .error (.http 404 "You cannot delete yourself!"))) ∧
    (uid ≠ cur.id →
      (AuthStore.delete_user db uid cur).2 = .ok "User Deleted" ∧
      AuthStore.get_user (AuthStore.delete_user db uid cur).1 uid =
        .error (.http 404 "User not found")) := by
  have huid : u.id = uid := by
    have := List.find?_some hfind
    simpa [beq_iff_eq] using this
  constructor
  · intro hself
    subst hself
    simp [AuthStore.delete_user, hfind, huid]
  · intro hother
    have hne : ¬(u.id == cur.id) = true := by simp [huid, hother]
    constructor
    · simp [AuthStore.delete_user, hfind, hne]
    · simp only [AuthStore.delete_user, hfind]
      rw [if_neg hne]
      simp only [AuthStore.get_user, AuthStore.findById]
      rw [find_id_eraseP db.users uid hids]

/-- C7 witness: with caller id 1 and rows 1 and 2, deleting id 1 is rejected
and deleting id 2 succeeds and makes id 2 unretrievable. -/
theorem C7_self_delete_guard_witness :
    (AuthStore.delete_user ⟨[⟨1, "A", "a@x", "r", "h", true⟩, ⟨2, "B", "b@x", "r", "h", true⟩], 3⟩
        1 ⟨1, "A", "a@x", "r", "h", true⟩ =
      (⟨[⟨1, "A", "a@x", "r", "h", true⟩, ⟨2, "B", "b@x", "r", "h", true⟩], 3⟩,
        .error (.http 404 "You cannot delete yourself!"))) ∧
    ((AuthStore.delete_user ⟨[⟨1, "A", "a@x", "r", "h", true⟩, ⟨2, "B", "b@x", "r", "h", true⟩], 3⟩
        2 ⟨1, "A", "a@x", "r", "h", true⟩).2 = .ok "User Deleted" ∧
      AuthStore.get_user
        (AuthStore.delete_user ⟨[⟨1, "A", "a@x", "r", "h", true⟩, ⟨2, "B", "b@x", "r", "h", true⟩], 3⟩
          2 ⟨1, "A", "a@x", "r", "h", true⟩).1 2 = .error (.http 404 "User not found")) :=
  ⟨(C7_self_delete_guard _ ⟨1, "A", "a@x", "r", "h", true⟩ 1 ⟨1, "A", "a@x", "r", "h", true⟩
      (by decide) (by decide)).1 rfl,
   (C7_self_delete_guard _ ⟨1, "A", "a@x", "r", "h", true⟩ 2 ⟨2, "B", "b@x", "r", "h", true⟩
      (by decide) (by decide)).2 (by decide)⟩

/-- C8: starting from a store without the email, the first create succeeds and
a second create with the same email returns the 404 "User already exists!"
conflict, leaving the store exactly as it was after the first create — in both
the auth store and the CRM store. -/
theorem C8_create_conflict (adb : AuthStore.DB) (r1 r2 : AuthStore.UserCreate)
    (hp : String → String) (cdb : CrmStore.DB) (c1 c2 : CrmStore.UserCreate)
    (hra : r1.email = r2.email) (hfa : AuthStore.findByEmail adb r1.email = none)
    (hrc : c1.email = c2.email) (hfc : CrmStore.findByEmail cdb c1.email = none) :
    ((∃ u, (AuthStore.create_user adb r1 hp).2 = .ok u) ∧
      AuthStore.create_user (AuthStore.create_user adb r1 hp).1 r2 hp =
        ((AuthStore.create_user adb r1 hp).1, .error (.http 404 "User already exists!"))) ∧
    ((∃ u, (CrmStore.create_user cdb c1).2 = .ok u) ∧
      CrmStore.create_user (CrmStore.create_user cdb c1).1 c2 =
        ((CrmStore.create_user cdb c1).1, .error (.http 404 "User already exists!"))) := by
  constructor
  · have h1 : AuthStore.create_user adb r1 hp =
        ({ users := adb.users ++
            [{ id := adb.nextId, name := r1.name, email := r1.email, role := r1.role
               hashed_pwd := hp r1.password, is_active := true }],
           nextId := adb.nextId + 1 },
         .ok { id := adb.nextId, name := r1.name, email := r1.email, role := r1.role
               hashed_pwd := hp r1.password, is_active := true }) := by
      simp [AuthStore.create_user, hfa]
    refine ⟨⟨_, by rw [h1]⟩, ?_⟩
    rw [h1]
    have hfind2 : AuthStore.findByEmail
        ({ users := adb.users ++
            [{ id := adb.nextId, name := r1.name, email := r1.email, role := r1.role
               hashed_pwd := hp r1.password, is_active := true }],
           nextId := adb.nextId + 1 } : AuthStore.DB) r2.email =
        some { id := adb.nextId, name := r1.name, email := r1.email, role := r1.role
               hashed_pwd := hp r1.password, is_active := true } := by
      have hfa' : List.find? (fun u => u.email == r1.email) adb.users = none := hfa
      simp only [AuthStore.findByEmail, List.find?_append]
      rw [← hra, hfa']
      simp
    simp [AuthStore.create_user, hfind2]
  · have h1 : CrmStore.create_user cdb c1 =
        ({ users := cdb.users ++
            [{ id := cdb.nextId, name := c1.name, first_name := c1.first_name
               email := c1.email, telephone := c1.telephone }],
           nextId := cdb.nextId + 1 },
         .ok { id := cdb.nextId, name := c1.name, first_name := c1.first_name
               email := c1.email, telephone := c1.telephone }) := by
      simp [CrmStore.create_user, hfc]
    refine ⟨⟨_, by rw [h1]⟩, ?_⟩
    rw [h1]
    have hfind2 : CrmStore.findByEmail
        ({ users := cdb.users ++
            [{ id := cdb.nextId, name := c1.name, first_name := c1.first_name
               email := c1.email, telephone := c1.telephone }],
           nextId := cdb.nextId + 1 } : CrmStore.DB) c2.email =
        some { id := cdb.nextId, name := c1.name, first_name := c1.first_name
               email := c1.email, telephone := c1.telephone } := by
      have hfc' : List.find? (fun u => u.email == c1.email) cdb.users = none := hfc
      simp only [CrmStore.findByEmail, List.find?_append]
      rw [← hrc, hfc']
      simp
    simp [CrmStore.create_user, hfind2]

/-- C8 witness: on empty stores, creating "x@y" succeeds and creating "x@y"
again conflicts without changing the store, in both stores. -/
theorem C8_create_conflict_witness :
    ((∃ u, (AuthStore.create_user ⟨[], 1⟩ ⟨"N", "x@y", "r", "pw"⟩ (fun p => p)).2 = .ok u) ∧
      AuthStore.create_user (AuthStore.create_user ⟨[], 1⟩ ⟨"N", "x@y", "r", "pw"⟩ (fun p => p)).1
          ⟨"M", "x@y", "r2", "pw2"⟩ (fun p => p) =
        ((AuthStore.create_user ⟨[], 1⟩ ⟨"N", "x@y", "r", "pw"⟩ (fun p => p)).1,
          .error (.http 404 "User already exists!"))) ∧
    ((∃ u, (CrmStore.create_user ⟨[], 1⟩ ⟨"N", "F", "x@y", "0102030405"⟩).2 = .ok u) ∧
      CrmStore.create_user (CrmStore.create_user ⟨[], 1⟩ ⟨"N", "F", "x@y", "0102030405"⟩).1
          ⟨"M", "G", "x@y", "0000000000"⟩ =
        ((CrmStore.create_user ⟨[], 1⟩ ⟨"N", "F", "x@y", "0102030405"⟩).1,
          .error (.http 404 "User already exists!"))) :=
  C8_create_conflict ⟨[], 1⟩ ⟨"N", "x@y", "r", "pw"⟩ ⟨"M", "x@y", "r2", "pw2"⟩ (fun p => p)
    ⟨[], 1⟩ ⟨"N", "F", "x@y", "0102030405"⟩ ⟨"M", "G", "x@y", "0000000000"⟩
    rfl (by decide) rfl (by decide)

/-- A concrete auth store with two rows, used to exhibit C4's failure. -/
def c4db : AuthStore.DB :=
  ⟨[⟨1, "A", "a@x", "r", "h1", true⟩, ⟨2, "B", "b@x", "r", "h2", true⟩], 3⟩

/-- C4 counterexample: in the auth store, updating user 1 to user 2's email
makes the commit's `IntegrityError` escape as a raw database error — the
handler has no try/except — and that raw error is not the HTTP conflict the
claim promises for "each credential store". -/
theorem C4_counterexample :
    (AuthStore.update_user c4db 1 ⟨"A", "b@x", "r", "pw"⟩).2 =
      .error .rawIntegrityError ∧
    (Except.error Auth.ApiError.rawIntegrityError : Except Auth.ApiError AuthStore.User) ≠
      Except.error (Auth.ApiError.http 404 "User already exists!") := by
  constructor
  · decide
  · decide

/-- C4 amended: only the CRM store's update catches the commit-time uniqueness
violation and reports it as the 404 "User already exists!" conflict; the auth
store's update propagates the raw `IntegrityError` instead. -/
theorem C4_update_conflict_amended :
    (∀ (cdb : CrmStore.DB) (uid : Nat) (req : CrmStore.UserCreate) (u : CrmStore.User),
      CrmStore.findById cdb uid = some u →
      (∃ v ∈ cdb.users, v.id ≠ u.id ∧ v.email = req.email) →
      CrmStore.update_user cdb uid req =
        (cdb, .error (.http 404 "User already exists!"))) ∧
    (∀ (adb : AuthStore.DB) (uid : Nat) (req : AuthStore.UserCreate) (u : AuthStore.User),
      AuthStore.findById adb uid = some u →
      (∃ v ∈ adb.users, v.id ≠ u.id ∧ v.email = req.email) →
      AuthStore.update_user adb uid req = (adb, .error .rawIntegrityError)) := by
  constructor
  · intro cdb uid req u hfind hdup
    have hany : cdb.users.any (fun v => decide (v.id ≠ u.id ∧ v.email = req.email)) = true := by
      rw [List.any_eq_true]
      obtain ⟨v, hv, hprop⟩ := hdup
      exact ⟨v, hv, by simpa using hprop⟩
    simp only [CrmStore.update_user, hfind]
    rw [if_pos hany]
  · intro adb uid req u hfind hdup
    have hany : adb.users.any (fun v => decide (v.id ≠ u.id ∧ v.email = req.email)) = true := by
      rw [List.any_eq_true]
      obtain ⟨v, hv, hprop⟩ := hdup
      exact ⟨v, hv, by simpa using hprop⟩
    simp only [AuthStore.update_user, hfind]
    rw [if_pos hany]

/-- C4 amended witness: concrete two-row stores where updating row 1 to row
2's email yields the CRM conflict and the auth raw error respectively. -/
theorem C4_update_conflict_amended_witness :
    CrmStore.update_user ⟨[⟨1, "A", "F", "a@x", "01"⟩, ⟨2, "B", "G", "b@x", "02"⟩], 3⟩
        1 ⟨"A", "F", "b@x", "01"⟩ =
      (⟨[⟨1, "A", "F", "a@x", "01"⟩, ⟨2, "B", "G", "b@x", "02"⟩], 3⟩,
        .error (.http 404 "User already exists!")) ∧
    AuthStore.update_user c4db 2 ⟨"B", "a@x", "r", "pw"⟩ =
      (c4db, .error .rawIntegrityError) :=
  ⟨(C4_update_conflict_amended.1 ⟨[⟨1, "A", "F", "a@x", "01"⟩, ⟨2, "B", "G", "b@x", "02"⟩], 3⟩
      1 ⟨"A", "F", "b@x", "01"⟩ ⟨1, "A", "F", "a@x", "01"⟩ (by decide)
      ⟨⟨2, "B", "G", "b@x", "02"⟩, by decide, by decide, by decide⟩),
   (C4_update_conflict_amended.2 c4db 2 ⟨"B", "a@x", "r", "pw"⟩ ⟨2, "B", "b@x", "r", "h2", true⟩
      (by decide) ⟨⟨1, "A", "a@x", "r", "h1", true⟩, by decide, by decide, by decide⟩)⟩

/-- Concrete hash function standing in for bcrypt in examples. -/
def examplePwdHash (p : String) : String := "bcrypt$" ++ p

/-- Empty two-store application state for examples. -/
def emptyApp : Surface.AppState := ⟨⟨[], 1⟩, ⟨[], 1⟩⟩

/-- C9 counterexample: with a failed bearer-token resolution, the CRM
user-creation endpoint rejects the request with that 401 (it DOES carry the
auth guard), while the auth-store user-creation endpoint processes the request
and creates the user — the exact opposite of the claim. -/
theorem C9_counterexample :
    Surface.handle (.crmCreate ⟨"N", "F", "x@y", "0102030405"⟩)
        (.error Auth.couldNotVerify) examplePwdHash emptyApp =
      (emptyApp, .error Auth.couldNotVerify) ∧
    (Surface.handle (.authCreate ⟨"N", "x@y", "r", "pw"⟩)
        (.error Auth.couldNotVerify) examplePwdHash emptyApp).2 =
      .ok (.authUser ⟨1, "N", "x@y", "r", "bcrypt$pw", true⟩) := by
  constructor
  · decide
  · decide

/-- C9 amended: the auth-store user-creation endpoint
(`POST /auth/user/create/`) is the one CRUD endpoint without the bearer-token
guard — its behaviour is independent of the caller's authentication — while
every other CRUD endpoint on /auth/user and /crm/users, including CRM user
creation, rejects a request whose token resolution failed with that error. -/
theorem C9_auth_guard_amended :
    (∀ (req : AuthStore.UserCreate) (a1 a2 : Except Auth.ApiError AuthStore.User)
      (hp : String → String) (s : Surface.AppState),
      Surface.handle (.authCreate req) a1 hp s = Surface.handle (.authCreate req) a2 hp s) ∧
    (∀ r : Surface.Request, (∀ req, r ≠ .authCreate req) →
      ∀ (e : Auth.ApiError) (hp : String → String) (s : Surface.AppState),
      Surface.handle r (.error e) hp s = (s, .error e)) := by
  constructor
  · intro req a1 a2 hp s
    rfl
  · intro r hr e hp s
    cases r with
    | authCreate req => exact absurd rfl (hr req)
    | authGetUser uid => rfl
    | authUpdate uid req => rfl
    | authDelete uid => rfl
    | authList => rfl
    | crmGetUser uid => rfl
    | crmGetByEmail em => rfl
    | crmCreate req => rfl
    | crmUpdate uid req => rfl
    | crmDelete uid => rfl
    | crmList => rfl

/-- C9 amended witness: auth-store creation gives the same outcome under a
failed and a successful authentication, and guarded endpoints (CRM creation,
auth deletion) bounce a failed authentication. -/
theorem C9_auth_guard_amended_witness :
    Surface.handle (.authCreate ⟨"N", "x@y", "r", "pw"⟩) (.error Auth.couldNotVerify)
        examplePwdHash emptyApp =
      Surface.handle (.authCreate ⟨"N", "x@y", "r", "pw"⟩)
        (.ok ⟨7, "Admin", "adm@x", "admin", "h", true⟩) examplePwdHash emptyApp ∧
    Surface.handle (.crmCreate ⟨"M", "G", "z@y", "0"⟩) (.error Auth.couldNotVerify)
        examplePwdHash emptyApp = (emptyApp, .error Auth.couldNotVerify) ∧
    Surface.handle (.authDelete 1) (.error Auth.couldNotVerify)
        examplePwdHash emptyApp = (emptyApp, .error Auth.couldNotVerify) :=
  ⟨C9_auth_guard_amended.1 ⟨"N", "x@y", "r", "pw"⟩ (.error Auth.couldNotVerify)
      (.ok ⟨7, "Admin", "adm@x", "admin", "h", true⟩) examplePwdHash emptyApp,
   C9_auth_guard_amended.2 (.crmCreate ⟨"M", "G", "z@y", "0"⟩)
      (fun req h => Surface.Request.noConfusion h) Auth.couldNotVerify examplePwdHash emptyApp,
   C9_auth_guard_amended.2 (.authDelete 1)
      (fun req h => Surface.Request.noConfusion h) Auth.couldNotVerify examplePwdHash emptyApp⟩

/-- C10: for a missing or empty client directory, `create_zip_if_needed`
returns (rather than raises) a `FileNotFoundError` value and leaves the state
— in particular the zip archive — untouched, and `update_manifest_cache`
ignores that returned value and proceeds with the locked cache check and
manifest generation on the unchanged state. -/
theorem C10_zip_error_returned (env : MGen.GenEnv) (s : MGen.GenState)
    (hempty : env.entries = []) :
    MGen.create_zip_if_needed env s = (some .fileNotFoundValue, s) ∧
    MGen.update_manifest_cache env s = MGen.lock_body env s := by
  have hzip : MGen.create_zip_if_needed env s = (some .fileNotFoundValue, s) := by
    simp [MGen.create_zip_if_needed, hempty]
  exact ⟨hzip, by simp [MGen.update_manifest_cache, hzip]⟩

/-- C10 witness: with an empty directory and a missing config, the zip step
returns the error value, nothing is zipped, and the cache path still runs
(and surfaces the config error of generation). -/
theorem C10_zip_error_returned_witness :
    MGen.create_zip_if_needed ⟨none, []⟩ ⟨none, 4, none, none, 0, 0, 0⟩ =
      (some .fileNotFoundValue, ⟨none, 4, none, none, 0, 0, 0⟩) ∧
    MGen.update_manifest_cache ⟨none, []⟩ ⟨none, 4, none, none, 0, 0, 0⟩ =
      MGen.lock_body ⟨none, []⟩ ⟨none, 4, none, none, 0, 0, 0⟩ :=
  C10_zip_error_returned ⟨none, []⟩ ⟨none, 4, none, none, 0, 0, 0⟩ rfl

/-- The spec's example directory: `a.txt` (content "hi"), the subdirectory
`b`, and `b/c.txt` (content "bye"). -/
def exampleDir : List FsEntry :=
  [⟨"a.txt", true, asciiBytes "hi", 1⟩, ⟨"b", false, [], 1⟩,
   ⟨"b/c.txt", true, asciiBytes "bye", 1⟩]

/-- C1: for a well-formed internal config, `generate_manifest` succeeds with
version and download URL taken from the config, and its `files` mapping
contains exactly the relative path of every regular file under the directory
paired with the SHA-256 hex digest of its content; on the spec's example
directory the mapping is precisely a.txt ↦ sha256("hi"), b/c.txt ↦
sha256("bye"). -/
theorem C1_generate_manifest_files :
    (∀ (cj : MGen.ConfigJson) (v u : String) (entries : List FsEntry),
      cj.version = some v → cj.download_url = some u →
      (entries.map FsEntry.path).Nodup →
      ∃ m, MGen.generate_manifest (some cj) entries = .ok m ∧
        m.version = v ∧ m.download_url = u ∧
        ∀ p h, (p, h) ∈ m.files ↔
          ∃ f ∈ entries, f.isFile = true ∧ f.path = p ∧ h = sha256Hex f.content) ∧
    MGen.generate_manifest (some ⟨some "1.0.0", some "https://example.com/dl"⟩) exampleDir =
      .ok ⟨"1.0.0", "https://example.com/dl",
        [("a.txt", "8f434346648f6b96df89dda901c5176b10a6d83961dd3c1ac88b59b2dc327aa4"),
         ("b/c.txt", "b49f425a7e1f9cff3856329ada223f2f9d368f15a00cf48df16ca95986137fe8")]⟩ := by
  constructor
  · intro cj v u entries hv hu _hnodup
    refine ⟨{ version := v, download_url := u,
              files := ((sortEntries entries).filter (fun f => f.isFile)).map
                (fun f => (f.path, sha256Hex f.content)) },
            by simp [MGen.generate_manifest, MGen.read_internal_config, hv, hu], rfl, rfl, ?_⟩
    intro p h
    simp only [List.mem_map, List.mem_filter, sortEntries, List.mem_insertionSort]
    constructor
    · rintro ⟨f, ⟨hf, hfile⟩, heq⟩
      exact ⟨f, hf, hfile, by simpa using congrArg Prod.fst heq,
        by simpa using (congrArg Prod.snd heq).symm⟩
    · rintro ⟨f, hf, hfile, hpath, hhash⟩
      exact ⟨f, ⟨hf, hfile⟩, by rw [hpath, hhash]⟩
  · set_option maxRecDepth 40000 in decide

/-- C1 witness: instantiating the universal part on the example directory and
a concrete config. -/
theorem C1_generate_manifest_files_witness :
    ∃ m, MGen.generate_manifest (some ⟨some "2.0", some "https://cdn/x"⟩) exampleDir = .ok m ∧
      m.version = "2.0" ∧ m.download_url = "https://cdn/x" ∧
      ∀ p h, (p, h) ∈ m.files ↔
        ∃ f ∈ exampleDir, f.isFile = true ∧ f.path = p ∧ h = sha256Hex f.content :=
  C1_generate_manifest_files.1 ⟨some "2.0", some "https://cdn/x"⟩ "2.0" "https://cdn/x"
    exampleDir rfl rfl (by decide)

/-! ### Sorting facts for the generator variant (claim C6) -/

instance : IsTotal FsEntry entryLe := ⟨fun a b => le_total a.path.data b.path.data⟩

instance : IsTrans FsEntry entryLe := ⟨fun _ _ _ h1 h2 => le_trans h1 h2⟩

/-- Strict-key-or-equal order; antisymmetric, so sorted lists that are
permutations of one another coincide. -/
def entryLt' (a b : FsEntry) : Prop := a.path.data < b.path.data ∨ a = b

instance : IsAntisymm FsEntry entryLt' :=
  ⟨by
    rintro a b (h1 | rfl) h2
    · rcases h2 with h2 | h2
      · exact absurd (h1.trans h2) (lt_irrefl _)
      · exact h2.symm
    · rfl⟩

lemma pairwise_and {α : Type} {R S : α → α → Prop} {l : List α}
    (h1 : l.Pairwise R) (h2 : l.Pairwise S) :
    l.Pairwise fun a b => R a b ∧ S a b := by
  induction l with
  | nil => exact List.Pairwise.nil
  | cons a l ih =>
    rcases List.pairwise_cons.mp h1 with ⟨ha1, ht1⟩
    rcases List.pairwise_cons.mp h2 with ⟨ha2, ht2⟩
    exact List.pairwise_cons.mpr ⟨fun b hb => ⟨ha1 b hb, ha2 b hb⟩, ih ht1 ht2⟩

/-- Strings with equal character data are equal. -/
lemma string_data_inj {s t : String} (h : s.data = t.data) : s = t := by
  cases s; cases t; exact congrArg String.mk h

/-- A sorted enumeration with pairwise-distinct paths is sorted for the
antisymmetric order `entryLt'`. -/
lemma pairwise_entryLt' {l : List FsEntry} (hs : l.Pairwise entryLe)
    (hn : (l.map FsEntry.path).Nodup) : l.Pairwise entryLt' := by
  have hne : l.Pairwise fun a b => a.path ≠ b.path := by
    rw [List.Nodup, List.pairwise_map] at hn
    exact hn
  refine (pairwise_and hs hne).imp ?_
  intro a b hab
  exact Or.inl (lt_of_le_of_ne hab.1 (fun hd => hab.2 (string_data_inj hd)))

/-- Enumerating the same directory contents in any order yields the same
sorted entry list. -/
lemma sortEntries_eq_of_perm {e1 e2 : List FsEntry} (hp : e1.Perm e2)
    (hn : (e1.map FsEntry.path).Nodup) : sortEntries e1 = sortEntries e2 := by
  have hn1 : ((sortEntries e1).map FsEntry.path).Nodup :=
    (((List.perm_insertionSort entryLe e1).map FsEntry.path).symm).nodup hn
  have hn2 : ((sortEntries e2).map FsEntry.path).Nodup :=
    (((List.perm_insertionSort entryLe e2).map FsEntry.path).symm).nodup (hp.map FsEntry.path |>.nodup hn)
  have hperm : (sortEntries e1).Perm (sortEntries e2) :=
    (List.perm_insertionSort entryLe e1).trans
      (hp.trans (List.perm_insertionSort entryLe e2).symm)
  exact List.eq_of_perm_of_sorted hperm
    (pairwise_entryLt' (List.sorted_insertionSort entryLe e1) hn1)
    (pairwise_entryLt' (List.sorted_insertionSort entryLe e2) hn2)

/-- C6 amended: the `manifest_generator.py` variant enumerates files in sorted
order — its manifest is invariant under the enumeration order of the same
directory contents, and its `files` mapping is sorted by path — but the claim
fails for the `manifest_api.py` variant, which keeps rglob encounter order
(see the counterexample). -/
theorem C6_sorted_enumeration_amended :
    (∀ (cfgSrc : Option MGen.ConfigJson) (e1 e2 : List FsEntry),
      e1.Perm e2 → (e1.map FsEntry.path).Nodup →
      MGen.generate_manifest cfgSrc e1 = MGen.generate_manifest cfgSrc e2) ∧
    (∀ (cfgSrc : Option MGen.ConfigJson) (e : List FsEntry) (m : MGen.GManifest),
      MGen.generate_manifest cfgSrc e = .ok m →
      m.files.Pairwise fun a b => a.1.data ≤ b.1.data) := by
  constructor
  · intro cfgSrc e1 e2 hp hn
    cases h : MGen.read_internal_config cfgSrc with
    | error e => simp [MGen.generate_manifest, h]
    | ok c => simp [MGen.generate_manifest, h, sortEntries_eq_of_perm hp hn]
  · intro cfgSrc e m hok
    cases h : MGen.read_internal_config cfgSrc with
    | error er => simp [MGen.generate_manifest, h] at hok
    | ok c =>
      simp only [MGen.generate_manifest, h] at hok
      have hfiles : m.files = ((sortEntries e).filter (fun f => f.isFile)).map
          (fun f => (f.path, sha256Hex f.content)) := by
        cases hok
        rfl
      rw [hfiles, List.pairwise_map]
      exact ((List.sorted_insertionSort entryLe e).filter _).imp (fun hab => hab)

/-- C6 amended witness: the generator's manifest is the same whether the
example directory is enumerated forwards or backwards. -/
theorem C6_sorted_enumeration_amended_witness :
    MGen.generate_manifest (some ⟨some "1.0.0", some "https://example.com/dl"⟩) exampleDir =
      MGen.generate_manifest (some ⟨some "1.0.0", some "https://example.com/dl"⟩)
        exampleDir.reverse :=
  C6_sorted_enumeration_amended.1 (some ⟨some "1.0.0", some "https://example.com/dl"⟩)
    exampleDir exampleDir.reverse (List.reverse_perm exampleDir).symm (by decide)

/-- Two enumerations of the same two files in opposite encounter order. -/
def c6e1 : List FsEntry :=
  [⟨"x.txt", true, asciiBytes "1", 1⟩, ⟨"y.txt", true, asciiBytes "2", 1⟩]

def c6e2 : List FsEntry :=
  [⟨"y.txt", true, asciiBytes "2", 1⟩, ⟨"x.txt", true, asciiBytes "1", 1⟩]

set_option maxRecDepth 40000 in
/-- C6 counterexample: the `manifest_api.py` variant does not sort — over the
same directory contents in two rglob encounter orders it produces different
manifests and byte-different persisted cache files. -/
theorem C6_counterexample :
    c6e2.Perm c6e1 ∧
    MApi.generate_manifest "1.0.0" "https://example.com/dl" c6e1 ≠
      MApi.generate_manifest "1.0.0" "https://example.com/dl" c6e2 ∧
    MApi.serializeA (MApi.generate_manifest "1.0.0" "https://example.com/dl" c6e1) ≠
      MApi.serializeA (MApi.generate_manifest "1.0.0" "https://example.com/dl" c6e2) := by
  refine ⟨List.Perm.swap _ _ _, ?_, ?_⟩
  · decide
  · decide

/-! ### State facts about the generator variant (claims C3 and C5) -/

/-- After the zip step, `LAST_MOD` is at or past the latest file mtime. -/
lemma czip_lastMod_ge (env : MGen.GenEnv) (s : MGen.GenState) :
    latestMtime env.entries ≤ ((MGen.create_zip_if_needed env s).2).lastMod := by
  simp only [MGen.create_zip_if_needed]
  split_ifs with h1 h2
  · have : env.entries = [] := List.isEmpty_iff.mp h1
    simp [this, latestMtime]
  · exact h2.2
  · exact le_refl _

/-- The zip step never touches the cache dict. -/
lemma czip_cache (env : MGen.GenEnv) (s : MGen.GenState) :
    ((MGen.create_zip_if_needed env s).2).cache = s.cache := by
  simp only [MGen.create_zip_if_needed]
  split_ifs <;> rfl

/-- After the zip step on a non-empty directory the archive exists. -/
lemma czip_zipSome (env : MGen.GenEnv) (s : MGen.GenState)
    (h : env.entries.isEmpty = false) :
    ((MGen.create_zip_if_needed env s).2).zipFile.isSome = true := by
  simp only [MGen.create_zip_if_needed]
  split_ifs with h1 h2
  · rw [h1] at h
    cases h
  · exact h2.1
  · rfl

/-- A state the zip step has already stabilised is left unchanged. -/
lemma czip_snd_noop (env : MGen.GenEnv) (t : MGen.GenState)
    (h1 : env.entries.isEmpty = false → t.zipFile.isSome = true)
    (h2 : latestMtime env.entries ≤ t.lastMod) :
    ((MGen.create_zip_if_needed env t).2) = t := by
  simp only [MGen.create_zip_if_needed]
  split_ifs with he hz
  · rfl
  · rfl
  · exact absurd ⟨h1 (by revert he; cases env.entries.isEmpty <;> simp), h2⟩ hz

/-- Running the zip step twice changes nothing the second time. -/
lemma czip_snd_idem (env : MGen.GenEnv) (s : MGen.GenState) :
    ((MGen.create_zip_if_needed env ((MGen.create_zip_if_needed env s).2)).2) =
      ((MGen.create_zip_if_needed env s).2) :=
  czip_snd_noop env _ (czip_zipSome env s) (czip_lastMod_ge env s)

/-- When `LAST_MOD` already covers the latest mtime the staleness check
reports no update and leaves the state alone. -/
lemma needs_false (env : MGen.GenEnv) (s : MGen.GenState)
    (h : latestMtime env.entries ≤ s.lastMod) :
    MGen.manifest_needs_update env s = (false, s) := by
  simp only [MGen.manifest_needs_update]
  rw [if_neg (by omega)]

/-- C5 amended: in the `manifest_generator.py` variant a second
`update_manifest_cache()` call under an unchanged filesystem reproduces the
first call's state and result exactly — same cache bytes, no rebuild, no
cache-file or zip write. (The `manifest_api.py` variant violates this; see the
counterexample.) -/
theorem C5_idempotent_amended (env : MGen.GenEnv) (s : MGen.GenState) :
    MGen.update_manifest_cache env ((MGen.update_manifest_cache env s).1) =
      MGen.update_manifest_cache env s := by
  have hsnd := czip_snd_idem env s
  have hlm1 := czip_lastMod_ge env s
  have hzip1 := czip_zipSome env s
  set s1 := (MGen.create_zip_if_needed env s).2 with hs1
  have hupd : MGen.update_manifest_cache env s = MGen.lock_body env s1 := rfl
  rw [hupd]
  cases hc : s1.cache with
  | some m =>
    have hlock : MGen.lock_body env s1 = (s1, .ok m) := by
      simp [MGen.lock_body, hc, needs_false env s1 hlm1]
    rw [hlock]
    show MGen.lock_body env (MGen.create_zip_if_needed env s1).2 = (s1, .ok m)
    rw [hsnd]
    exact hlock
  | none =>
    cases hg : MGen.generate_manifest env.cfgSrc env.entries with
    | error e =>
      have hlock : MGen.lock_body env s1 = (s1, .error e) := by
        simp [MGen.lock_body, hc, MGen.run_generate, hg]
      rw [hlock]
      show MGen.lock_body env (MGen.create_zip_if_needed env s1).2 = (s1, .error e)
      rw [hsnd]
      exact hlock
    | ok m =>
      have hlock : MGen.lock_body env s1 =
          ({ s1 with
              cacheFile := some (MGen.serializeG m)
              cacheWrites := s1.cacheWrites + 1
              builds := s1.builds + 1
              cache := some m }, .ok m) := by
        simp [MGen.lock_body, hc, MGen.run_generate, hg]
      rw [hlock]
      set t : MGen.GenState :=
        { s1 with
            cacheFile := some (MGen.serializeG m)
            cacheWrites := s1.cacheWrites + 1
            builds := s1.builds + 1
            cache := some m } with ht
      show MGen.lock_body env (MGen.create_zip_if_needed env t).2 = (t, .ok m)
      have hts : (MGen.create_zip_if_needed env t).2 = t :=
        czip_snd_noop env t (fun hne => hzip1 hne) hlm1
      rw [hts]
      have hct : t.cache = some m := rfl
      simp [MGen.lock_body, hct, needs_false env t hlm1]

/-- Concrete environment and state for the `manifest_api.py` variant: one file
`a.txt` ("hi", mtime 5), clock at 10, cold cache. -/
def c5env : MApi.ApiEnv := ⟨"1.1.0", "https://example.com/files"⟩

def c5s0 : MApi.ApiState := ⟨[⟨"a.txt", true, asciiBytes "hi", 5⟩], 10, none, 0, 0⟩

/-- State after the first `update_manifest_cache()` call. -/
def c5s1 : MApi.ApiState := (MApi.update_manifest_cache c5env c5s0).1

/-- mtime of the cache file inside the watched directory, if present. -/
def cacheFileMtime (s : MApi.ApiState) : Option Nat :=
  (s.dir.find? (fun f => f.path == MApi.cacheName)).map FsEntry.mtime

set_option maxRecDepth 100000 in
set_option maxHeartbeats 1000000 in
/-- C5 counterexample: in the `manifest_api.py` variant, with no external
filesystem change after the first build, the second `update_manifest_cache()`
call performs another rebuild, returns a different manifest (it now hashes the
cache file the first build wrote into the watched directory), and rewrites the
cache file, changing its timestamp. -/
theorem C5_counterexample :
    (MApi.update_manifest_cache c5env c5s1).1.builds = 2 ∧
    (MApi.update_manifest_cache c5env c5s1).2 ≠ (MApi.update_manifest_cache c5env c5s0).2 ∧
    cacheFileMtime (MApi.update_manifest_cache c5env c5s1).1 ≠ cacheFileMtime c5s1 := by
  refine ⟨?_, ?_, ?_⟩ <;> decide

/-- Concrete generator-variant scenario for C3: the internal config file is
missing, the directory holds `a.txt` with mtime 10, the recorded `LAST_MOD` is
5 and no manifest has been built yet. -/
def c3env : MGen.GenEnv := ⟨none, [⟨"a.txt", true, asciiBytes "hi", 10⟩]⟩

def c3s0 : MGen.GenState := ⟨none, 5, none, none, 0, 0, 0⟩

/-- C3 counterexample: manifest generation fails on the missing config, yet the
staleness timestamp has already advanced from 5 to the observed mtime 10, so
the next cache check no longer detects staleness. -/
theorem C3_counterexample :
    (MGen.update_manifest_cache c3env c3s0).2 = .error .configFileNotFound ∧
    (MGen.update_manifest_cache c3env c3s0).1.lastMod = 10 ∧
    (MGen.update_manifest_cache c3env c3s0).1.lastMod ≠ c3s0.lastMod ∧
    (MGen.manifest_needs_update c3env (MGen.update_manifest_cache c3env c3s0).1).1 = false := by
  refine ⟨?_, ?_, ?_, ?_⟩ <;> decide

/-- C3 amended: the staleness timestamp is advanced by the zip step and the
staleness check themselves, before and regardless of a successful build. When
generation fails the cache was necessarily still empty, the timestamp already
covers the latest observed mtime so the next cache check detects no staleness,
and the next call retries generation only because the cache is still empty —
failing the same way while the config stays broken. -/
theorem C3_staleness_amended (env : MGen.GenEnv) (s : MGen.GenState) (e : MGen.GenError)
    (herr : (MGen.update_manifest_cache env s).2 = .error e) :
    s.cache = none ∧
    (MGen.update_manifest_cache env s).1.cache = none ∧
    latestMtime env.entries ≤ (MGen.update_manifest_cache env s).1.lastMod ∧
    (MGen.manifest_needs_update env (MGen.update_manifest_cache env s).1).1 = false ∧
    (MGen.update_manifest_cache env ((MGen.update_manifest_cache env s).1)).2 = .error e := by
  have hsnd := czip_snd_idem env s
  have hlm1 := czip_lastMod_ge env s
  have hcc := czip_cache env s
  set s1 := (MGen.create_zip_if_needed env s).2 with hs1
  have hupd : MGen.update_manifest_cache env s = MGen.lock_body env s1 := rfl
  rw [hupd] at herr ⊢
  cases hc : s1.cache with
  | some m =>
    have hlock : MGen.lock_body env s1 = (s1, .ok m) := by
      simp [MGen.lock_body, hc, needs_false env s1 hlm1]
    rw [hlock] at herr
    cases herr
  | none =>
    cases hg : MGen.generate_manifest env.cfgSrc env.entries with
    | ok m =>
      have hlock : MGen.lock_body env s1 =
          ({ s1 with
              cacheFile := some (MGen.serializeG m)
              cacheWrites := s1.cacheWrites + 1
              builds := s1.builds + 1
              cache := some m }, .ok m) := by
        simp [MGen.lock_body, hc, MGen.run_generate, hg]
      rw [hlock] at herr
      cases herr
    | error e' =>
      have hlock : MGen.lock_body env s1 = (s1, .error e') := by
        simp [MGen.lock_body, hc, MGen.run_generate, hg]
      rw [hlock] at herr
      have he : e' = e := by
        cases herr
        rfl
      subst he
      rw [hlock]
      refine ⟨by rw [← hcc, hc], hc, hlm1, by rw [needs_false env s1 hlm1], ?_⟩
      show (MGen.lock_body env (MGen.create_zip_if_needed env s1).2).2 = .error e'
      rw [hsnd, hlock]

/-- C3 amended witness: the concrete missing-config scenario instantiates
every conclusion of the amended claim. -/
theorem C3_staleness_amended_witness :
    c3s0.cache = none ∧
    (MGen.update_manifest_cache c3env c3s0).1.cache = none ∧
    latestMtime c3env.entries ≤ (MGen.update_manifest_cache c3env c3s0).1.lastMod ∧
    (MGen.manifest_needs_update c3env (MGen.update_manifest_cache c3env c3s0).1).1 = false ∧
    (MGen.update_manifest_cache c3env ((MGen.update_manifest_cache c3env c3s0).1)).2 =
      .error .configFileNotFound :=
  C3_staleness_amended c3env c3s0 .configFileNotFound (by decide)
